import Mathlib

/-!
Verification of the README statistics generator.

The repository holds two variants of one script (`index.mjs`): each fetches
GitHub statistics for the user `la55u`, aggregates them into a flat summary
record, renders a Handlebars template with it and writes `README.md`.

Shallow embedding conventions:
- A thrown JS exception is an `Except.error` carrying a `JsError` value.
- The network is an oracle: for each endpoint the environment `ApiEnv`
  supplies the outcome of the `fetch` call, as an `Except` of an
  `HttpResp` whose body-parsing outcomes are themselves `Except`s
  (`response.json()` can throw on malformed JSON).
- `console.error` calls are collected as a `List LogEvent` tagged with the
  call site; `console.log` diagnostics are not modelled.
- The Handlebars engine and the file system are external to the repository
  (spec section 1 excludes them), so template loading is an oracle
  `Except JsError String` and compile-plus-render is an oracle function
  `String → data → Except JsError String`.
- JS `Date` parsing is modelled for the ECMAScript date-time string format
  that the GitHub API emits (`YYYY-MM-DD` and `YYYY-MM-DDTHH:MM:SS[.sss]Z`);
  other layouts are modelled as invalid dates, on which `toISOString`
  throws a `RangeError` exactly as in JS.
-/

/-- A JavaScript exception value, as far as this program distinguishes them.
`fetchError path cause` embeds the wrapping
`new Error(error-fetching-path-message, { cause })` performed by `fetchData`;
`wrapped cause` embeds the rewrap `new Error(error, { cause: error })`
performed by the second variant of `fetchAll`. -/
inductive JsError where
  | networkError (msg : String)
  | httpError (status : Nat) (statusText : String)
  | jsonParseError (msg : String)
  | typeError (msg : String)
  | rangeError (msg : String)
  | fsError (msg : String)
  | templateError (msg : String)
  | fetchError (path : String) (cause : JsError)
  | wrapped (cause : JsError)
deriving Repr, DecidableEq

/-- A `console.error` call, tagged with its call site. -/
inductive LogEvent where
  | fetchAllError (e : JsError)
  | loadTemplateError (e : JsError)
  | generateReadmeError (e : JsError)
  | mainError (e : JsError)
deriving Repr, DecidableEq

/-- Outcome of an HTTP `fetch` that reached the server: status information
plus the outcomes of the two possible `response.json()` calls (`json` on the
success path, `errJson` for the error-body parse on the non-ok path). -/
structure HttpResp (α : Type) where
  ok : Bool
  status : Nat
  statusText : String
  json : Except JsError α
  errJson : Except JsError Unit

/-- The fields of a repository object that the program reads.  `priv` embeds
the JSON field named `private` (a Lean keyword). -/
structure Repo where
  name : String
  stargazers_count : Nat
  priv : Bool
deriving Repr, DecidableEq

/-- An element of a commit listing; only the number of entries is used. -/
structure Commit where
  sha : String
deriving Repr, DecidableEq

/-- The fields of a search-result item that the program reads. -/
structure SearchItem where
  created_at : String
  html_url : String
deriving Repr, DecidableEq

/-- The fields of a `search/issues` response that the program reads. -/
structure SearchResp where
  total_count : Nat
  items : List SearchItem
deriving Repr, DecidableEq

/-- The fields of the user-profile response that the program reads. -/
structure UserData where
  created_at : String
  public_repos : Nat
  followers : Nat
deriving Repr, DecidableEq

/-- Character for a decimal digit value. -/
def digitCh (n : Nat) : Char := Char.ofNat (48 + n)

/-- Numeric value of a decimal digit character. -/
def digitVal (c : Char) : Nat := c.toNat - 48

/-- Two-digit zero-padded decimal rendering, as a character list. -/
def pad2 (n : Nat) : List Char := [digitCh (n / 10 % 10), digitCh (n % 10)]

/-- Four-digit zero-padded decimal rendering, as a character list. -/
def pad4 (n : Nat) : List Char :=
  [digitCh (n / 1000 % 10), digitCh (n / 100 % 10), digitCh (n / 10 % 10), digitCh (n % 10)]

/-- The calendar-date part of an ISO 8601 rendering, as a character list. -/
def isoDateChars (y m d : Nat) : List Char :=
  pad4 y ++ '-' :: pad2 m ++ '-' :: pad2 d

/-- The calendar-date string `YYYY-MM-DD`: what
`toISOString().substring(0, 10)` produces. -/
def isoDateString (y m d : Nat) : String := String.mk (isoDateChars y m d)

/-- Gregorian leap-year rule. -/
def isLeapYear (y : Nat) : Bool := (y % 4 == 0 && y % 100 != 0) || y % 400 == 0

/-- Number of days of month `m` of year `y`. -/
def daysInMonth (y m : Nat) : Nat :=
  if m == 2 then (if isLeapYear y then 29 else 28)
  else if m == 4 || m == 6 || m == 9 || m == 11 then 30 else 31

/-- Validity of a calendar date; the year bound keeps `toISOString` in its
four-digit-year form. -/
def isValidYMD (y m d : Nat) : Bool :=
  y ≤ 9999 && 1 ≤ m && m ≤ 12 && 1 ≤ d && d ≤ daysInMonth y m

/-- Time-of-day check for the tail of a UTC ISO 8601 timestamp: empty
(date-only form) or `THH:MM:SS` followed by `Z` or `.sssZ`. -/
def timeTailOk : List Char → Bool
  | [] => true
  | 'T' :: h1 :: h2 :: ':' :: m1 :: m2 :: ':' :: s1 :: s2 :: rest =>
      h1.isDigit && h2.isDigit && m1.isDigit && m2.isDigit &&
      s1.isDigit && s2.isDigit &&
      digitVal h1 * 10 + digitVal h2 < 24 &&
      digitVal m1 * 10 + digitVal m2 < 60 &&
      digitVal s1 * 10 + digitVal s2 < 60 &&
      (match rest with
       | ['Z'] => true
       | '.' :: f1 :: f2 :: f3 :: ['Z'] => f1.isDigit && f2.isDigit && f3.isDigit
       | _ => false)
  | _ => false

/-- Parse of the ECMAScript date-time string format restricted to UTC, as a
calendar date.  `none` models the JS Invalid Date. -/
def parseDateChars : List Char → Option (Nat × Nat × Nat)
  | c1 :: c2 :: c3 :: c4 :: '-' :: c5 :: c6 :: '-' :: c7 :: c8 :: rest =>
      if c1.isDigit && c2.isDigit && c3.isDigit && c4.isDigit &&
         c5.isDigit && c6.isDigit && c7.isDigit && c8.isDigit then
        if isValidYMD (digitVal c1 * 1000 + digitVal c2 * 100 + digitVal c3 * 10 + digitVal c4)
             (digitVal c5 * 10 + digitVal c6) (digitVal c7 * 10 + digitVal c8) &&
           timeTailOk rest then
          some (digitVal c1 * 1000 + digitVal c2 * 100 + digitVal c3 * 10 + digitVal c4,
                digitVal c5 * 10 + digitVal c6, digitVal c7 * 10 + digitVal c8)
        else none
      else none
  | _ => none

/-- Parse of a date string, on the string type. -/
def parseDate (s : String) : Option (Nat × Nat × Nat) := parseDateChars s.data

/-- Embeds `new Date(s).toISOString().substring(0, 10)`: on an invalid date,
`toISOString` throws a `RangeError`. -/
def normalizeDate (s : String) : Except JsError String :=
  match parseDate s with
  | some (y, m, d) => Except.ok (isoDateString y m d)
  | none => Except.error (JsError.rangeError "Invalid time value")

/-- A calendar date known to be valid; the model of the wall clock value
`new Date()` at the precision the program uses. -/
structure CivilDate where
  year : Nat
  month : Nat
  day : Nat
  valid : isValidYMD year month day = true

/-- The oracle environment of one run: for each endpoint the outcome of its
`fetch`, plus the wall-clock date. -/
structure ApiEnv where
  reposResp : Except JsError (HttpResp (List Repo))
  commitsResp : String → Except JsError (HttpResp (List Commit))
  issuesResp : Except JsError (HttpResp SearchResp)
  prsAscResp : Except JsError (HttpResp SearchResp)
  prsDescResp : Except JsError (HttpResp SearchResp)
  mergedResp : Except JsError (HttpResp SearchResp)
  commenterResp : Except JsError (HttpResp SearchResp)
  userResp : Except JsError (HttpResp UserData)
  now : CivilDate

def reposPath_v1 : String := "users/la55u/repos?type=all&per_page=100"
def reposPath_v2 : String := "users/la55u/repos?type=public&per_page=100"
def commitsPath (name : String) : String := "repos/la55u/" ++ name ++ "/commits"
def issuesPath : String := "search/issues?q=author:la55u+type:issue"
def prsAscPath_v1 : String := "search/issues?q=author:la55u+type:pr&sort=created&order=asc"
def prsAscPath_v2 : String :=
  "search/issues?q=author:la55u+type:pr&sort=created&order=asc&per_page=1"
def prsDescPath_v2 : String :=
  "search/issues?q=author:la55u+type:pr&sort=created&order=desc&per_page=1"
def mergedPath : String := "search/issues?q=author:la55u+type:pr+is:merged"
def commenterPath : String := "search/issues?q=commenter:la55u"
def userPath_v1 : String := "user"
def userPath_v2 : String := "users/la55u"

/-- The try block of `fetchData`: await the fetch, on a non-ok status parse
the error body (which can itself throw) and throw a status error, otherwise
return the parsed JSON body. -/
def fetchDataTry {α : Type} (resp : Except JsError (HttpResp α)) : Except JsError α := do
  let response ← resp
  if !response.ok then do
    let _err ← response.errJson
    Except.error (JsError.httpError response.status response.statusText)
  else
    response.json

/-- Embeds `fetchData` (identical in both variants): any failure inside the
try block is rethrown wrapped in an error naming the path, with the original
failure attached as `cause`. -/
def fetchData {α : Type} (resp : Except JsError (HttpResp α)) (path : String) :
    Except JsError α :=
  match fetchDataTry resp with
  | Except.ok data => Except.ok data
  | Except.error e => Except.error (JsError.fetchError path e)

/-- Embeds `xs[0].created_at`-style access: indexing an empty JS array gives
`undefined`, and the subsequent property read throws a `TypeError`. -/
def index0 {α : Type} (xs : List α) : Except JsError α :=
  match xs with
  | [] => Except.error
      (JsError.typeError "Cannot read properties of undefined (reading created_at)")
  | x :: _ => Except.ok x

/-- Embeds the sequential `for (const repo of repositories)` loop of the
first variant: each commit listing is fetched only after the previous fetch
completed, and its length is added to the accumulator. -/
def totalCommitsLoop (commits : String → Except JsError (HttpResp (List Commit))) :
    List Repo → Nat → Except JsError Nat
  | [], acc => Except.ok acc
  | repo :: rest, acc => do
      let commitsData ← fetchData (commits repo.name) (commitsPath repo.name)
      totalCommitsLoop commits rest (acc + commitsData.length)

/-- The summary record of the first variant. -/
structure Summary1 where
  issuesOpened : Nat
  pullRequestsOpened : Nat
  pullRequestsMerged : Nat
  commentsOnIssues : Nat
  publicRepoCount : Nat
  totalStars : Nat
  totalCommits : Nat
  registeredDate : String
  firstPullRequestDate : String
  sponsoredAccounts : Nat
  statUpdated : String
  followers : Nat
deriving Repr, DecidableEq

/-- The summary record of the second variant. -/
structure Summary2 where
  issuesOpened : Nat
  prsOpened : Nat
  prsMerged : Nat
  commentsOnIssues : Nat
  publicRepoCount : Nat
  totalStars : Nat
  registeredDate : String
  firstPRDate : String
  firstPRUrl : String
  sponsoredAccounts : Nat
  statUpdated : String
  followers : Nat
  latestPRDate : String
  latestPRUrl : String
deriving Repr, DecidableEq

/-- The try block of the first variant of `fetchAll` (`index.mjs`, first
file): sequential fetches, star total by `forEach` accumulation, commit
total by the sequential loop, first-PR date from item 0 of the
ascending-sorted search, date normalization in the returned record. -/
def fetchAllBody_v1 (env : ApiEnv) : Except JsError Summary1 := do
  let repositories ← fetchData env.reposResp reposPath_v1
  let totalStars := repositories.foldl (fun acc repo => acc + repo.stargazers_count) 0
  let totalCommits ← totalCommitsLoop env.commitsResp repositories 0
  let issuesData ← fetchData env.issuesResp issuesPath
  let issuesOpened := issuesData.total_count
  let prs ← fetchData env.prsAscResp prsAscPath_v1
  let pullRequestsOpened := prs.total_count
  let firstItem ← index0 prs.items
  let firstPullRequestDate := firstItem.created_at
  let mergedPRs ← fetchData env.mergedResp mergedPath
  let pullRequestsMerged := mergedPRs.total_count
  let commentsOnIssuesData ← fetchData env.commenterResp commenterPath
  let commentsOnIssues := commentsOnIssuesData.total_count
  let userData ← fetchData env.userResp userPath_v1
  let registeredDate := userData.created_at
  let publicRepoCount := userData.public_repos
  let followers := userData.followers
  let registeredDateIso ← normalizeDate registeredDate
  let firstPullRequestDateIso ← normalizeDate firstPullRequestDate
  Except.ok {
    issuesOpened := issuesOpened
    pullRequestsOpened := pullRequestsOpened
    pullRequestsMerged := pullRequestsMerged
    commentsOnIssues := commentsOnIssues
    publicRepoCount := publicRepoCount
    totalStars := totalStars
    totalCommits := totalCommits
    registeredDate := registeredDateIso
    firstPullRequestDate := firstPullRequestDateIso
    sponsoredAccounts := 3
    statUpdated := isoDateString env.now.year env.now.month env.now.day
    followers := followers }

/-- The try block of the second variant of `fetchAll` (`index.mjs`, second
file): stars restricted to non-private repositories, no commit loop, first
and latest PR from item 0 of the ascending- and descending-sorted searches. -/
def fetchAllBody_v2 (env : ApiEnv) : Except JsError Summary2 := do
  let repositories ← fetchData env.reposResp reposPath_v2
  let totalStars := repositories.foldl
    (fun acc repo => if !repo.priv then acc + repo.stargazers_count else acc) 0
  let issuesData ← fetchData env.issuesResp issuesPath
  let issuesOpened := issuesData.total_count
  let firstPrData ← fetchData env.prsAscResp prsAscPath_v2
  let prsOpened := firstPrData.total_count
  let firstItem ← index0 firstPrData.items
  let firstPRDate := firstItem.created_at
  let firstPRUrl := firstItem.html_url
  let latestPrData ← fetchData env.prsDescResp prsDescPath_v2
  let latestItem ← index0 latestPrData.items
  let latestPRDate := latestItem.created_at
  let latestPRUrl := latestItem.html_url
  let mergedPRs ← fetchData env.mergedResp mergedPath
  let prsMerged := mergedPRs.total_count
  let commentsOnIssuesData ← fetchData env.commenterResp commenterPath
  let commentsOnIssues := commentsOnIssuesData.total_count
  let userData ← fetchData env.userResp userPath_v2
  let registeredDate := userData.created_at
  let publicRepoCount := userData.public_repos
  let followers := userData.followers
  let registeredDateIso ← normalizeDate registeredDate
  let firstPRDateIso ← normalizeDate firstPRDate
  let latestPRDateIso ← normalizeDate latestPRDate
  Except.ok {
    issuesOpened := issuesOpened
    prsOpened := prsOpened
    prsMerged := prsMerged
    commentsOnIssues := commentsOnIssues
    publicRepoCount := publicRepoCount
    totalStars := totalStars
    registeredDate := registeredDateIso
    firstPRDate := firstPRDateIso
    firstPRUrl := firstPRUrl
    sponsoredAccounts := 3
    statUpdated := isoDateString env.now.year env.now.month env.now.day
    followers := followers
    latestPRDate := latestPRDateIso
    latestPRUrl := latestPRUrl }

/-- Embeds the first variant of `fetchAll`: the catch block logs the error
and falls off the end of the function, so the caller receives `undefined`
(`none`) and no exception. -/
def fetchAll_v1 (env : ApiEnv) : Option Summary1 × List LogEvent :=
  match fetchAllBody_v1 env with
  | Except.ok s => (some s, [])
  | Except.error e => (none, [LogEvent.fetchAllError e])

/-- Embeds the second variant of `fetchAll`: the catch block logs the error
and rethrows it wrapped with itself as `cause`. -/
def fetchAll_v2 (env : ApiEnv) : Except JsError Summary2 × List LogEvent :=
  match fetchAllBody_v2 env with
  | Except.ok s => (Except.ok s, [])
  | Except.error e => (Except.error (JsError.wrapped e), [LogEvent.fetchAllError e])

/-- Embeds `loadTemplate` (identical in both variants): a read failure is
logged and rethrown. -/
def loadTemplate (fsRead : Except JsError String) :
    Except JsError String × List LogEvent :=
  match fsRead with
  | Except.ok content => (Except.ok content, [])
  | Except.error e => (Except.error e, [LogEvent.loadTemplateError e])

/-- Embeds `generateReadme` (identical in both variants), generic in the
data argument because the first variant can pass `undefined`.  `hb` is the
external Handlebars engine: compile of the template plus application to the
data.  A failure from either stage is logged and rethrown. -/
def generateReadme {δ : Type} (fsRead : Except JsError String)
    (hb : String → δ → Except JsError String) (data : δ) :
    Except JsError String × List LogEvent :=
  match loadTemplate fsRead with
  | (Except.ok templateContent, logs) =>
      match hb templateContent data with
      | Except.ok readmeContent => (Except.ok readmeContent, logs)
      | Except.error e => (Except.error e, logs ++ [LogEvent.generateReadmeError e])
  | (Except.error e, logs) => (Except.error e, logs ++ [LogEvent.generateReadmeError e])

/-- The outcome of one run: the content written to `README.md` (if any) and
the `console.error` trace. -/
structure RunOutcome where
  written : Option String
  logged : List LogEvent
deriving Repr, DecidableEq

/-- Embeds `main` of the first variant.  `fetchAll` never throws there, so
`data` can be `undefined` and rendering still proceeds; the catch only fires
on a template-load or render failure. -/
def main_v1 (env : ApiEnv) (fsRead : Except JsError String)
    (hb : String → Option Summary1 → Except JsError String) : RunOutcome :=
  match fetchAll_v1 env with
  | (data, logs1) =>
    match generateReadme fsRead hb data with
    | (Except.ok readmeContent, logs2) =>
        { written := some readmeContent, logged := logs1 ++ logs2 }
    | (Except.error e, logs2) =>
        { written := none, logged := logs1 ++ logs2 ++ [LogEvent.mainError e] }

/-- Embeds `main` of the second variant: a throw from `fetchAll` skips
rendering and the write; any caught error is logged. -/
def main_v2 (env : ApiEnv) (fsRead : Except JsError String)
    (hb : String → Summary2 → Except JsError String) : RunOutcome :=
  match fetchAll_v2 env with
  | (Except.error e, logs1) =>
      { written := none, logged := logs1 ++ [LogEvent.mainError e] }
  | (Except.ok data, logs1) =>
    match generateReadme fsRead hb data with
    | (Except.ok readmeContent, logs2) =>
        { written := some readmeContent, logged := logs1 ++ logs2 }
    | (Except.error e, logs2) =>
        { written := none, logged := logs1 ++ logs2 ++ [LogEvent.mainError e] }

/-- A successful HTTP response with the given parsed body. -/
def httpOk {α : Type} (a : α) : Except JsError (HttpResp α) :=
  Except.ok { ok := true, status := 200, statusText := "OK",
              json := Except.ok a, errJson := Except.ok () }

/-- Repository list used by the concrete test environment: stars 1, 2, 3,
with the third repository private. -/
def reposGood : List Repo :=
  [{ name := "alpha", stargazers_count := 1, priv := false },
   { name := "beta", stargazers_count := 2, priv := false },
   { name := "gamma", stargazers_count := 3, priv := true }]

/-- A concrete environment in which every fetch succeeds. -/
def envGood : ApiEnv where
  reposResp := httpOk reposGood
  commitsResp := fun _ => httpOk [{ sha := "c1" }, { sha := "c2" }]
  issuesResp := httpOk { total_count := 7, items := [] }
  prsAscResp :=
    httpOk ⟨4, [{ created_at := "2020-02-02T03:04:05Z", html_url := "https://first" }]⟩
  prsDescResp :=
    httpOk ⟨4, [{ created_at := "2023-09-09T10:11:12Z", html_url := "https://latest" }]⟩
  mergedResp := httpOk { total_count := 2, items := [] }
  commenterResp := httpOk { total_count := 9, items := [] }
  userResp := httpOk { created_at := "2013-01-15T10:00:00Z", public_repos := 11, followers := 13 }
  now := { year := 2024, month := 5, day := 17, valid := by decide }

/-- The summary the first variant computes on `envGood`. -/
def sGood1 : Summary1 where
  issuesOpened := 7
  pullRequestsOpened := 4
  pullRequestsMerged := 2
  commentsOnIssues := 9
  publicRepoCount := 11
  totalStars := 6
  totalCommits := 6
  registeredDate := "2013-01-15"
  firstPullRequestDate := "2020-02-02"
  sponsoredAccounts := 3
  statUpdated := "2024-05-17"
  followers := 13

/-- The summary the second variant computes on `envGood`. -/
def sGood2 : Summary2 where
  issuesOpened := 7
  prsOpened := 4
  prsMerged := 2
  commentsOnIssues := 9
  publicRepoCount := 11
  totalStars := 3
  registeredDate := "2013-01-15"
  firstPRDate := "2020-02-02"
  firstPRUrl := "https://first"
  sponsoredAccounts := 3
  statUpdated := "2024-05-17"
  followers := 13
  latestPRDate := "2023-09-09"
  latestPRUrl := "https://latest"

/-- The concrete environment whose very first fetch fails on the network. -/
def envBad : ApiEnv where
  reposResp := Except.error (JsError.networkError "fetch failed")
  commitsResp := fun _ => Except.error (JsError.networkError "fetch failed")
  issuesResp := Except.error (JsError.networkError "fetch failed")
  prsAscResp := Except.error (JsError.networkError "fetch failed")
  prsDescResp := Except.error (JsError.networkError "fetch failed")
  mergedResp := Except.error (JsError.networkError "fetch failed")
  commenterResp := Except.error (JsError.networkError "fetch failed")
  userResp := Except.error (JsError.networkError "fetch failed")
  now := { year := 2024, month := 5, day := 17, valid := by decide }

/-- A concrete environment in which every fetch succeeds but the
pull-request searches return zero items. -/
def envEmpty : ApiEnv :=
  { envGood with
      prsAscResp := httpOk { total_count := 0, items := [] },
      prsDescResp := httpOk { total_count := 0, items := [] } }

/-- A template read that succeeds. -/
def fsOk : Except JsError String := Except.ok "TEMPLATE"

/-- A Handlebars oracle for the first variant that renders any data — also
`undefined` — to a fixed document, as the real engine does for a template
whose placeholders simply go blank on a missing context. -/
def hbConst1 : String → Option Summary1 → Except JsError String :=
  fun _ _ => Except.ok "RENDERED"

/-- A Handlebars oracle for the second variant that renders any summary to a
fixed document. -/
def hbConst2 : String → Summary2 → Except JsError String :=
  fun _ _ => Except.ok "RENDERED"


/-- Inversion of a monadic bind on `Except`: the bind succeeds exactly when
both stages do. -/
theorem bind_ok_iff {α β : Type} (x : Except JsError α) (f : α → Except JsError β) (c : β) :
    x >>= f = Except.ok c ↔ ∃ b, x = Except.ok b ∧ f b = Except.ok c := by
  cases x <;> simp [Bind.bind, Except.bind]

/-- The `forEach` star accumulation of the first variant computes the sum of
the star counts. -/
theorem foldl_stars_eq_sum (rs : List Repo) (acc : Nat) :
    rs.foldl (fun acc repo => acc + repo.stargazers_count) acc =
      acc + (rs.map Repo.stargazers_count).sum := by
  induction rs generalizing acc with
  | nil => simp
  | cons r rs ih => simp [List.foldl_cons, ih (acc + r.stargazers_count)]; omega

/-- The guarded `forEach` star accumulation of the second variant computes
the sum of the star counts of the non-private repositories. -/
theorem foldl_stars_filter_eq_sum (rs : List Repo) (acc : Nat) :
    rs.foldl (fun acc repo => if !repo.priv then acc + repo.stargazers_count else acc) acc =
      acc + ((rs.filter (fun repo => !repo.priv)).map Repo.stargazers_count).sum := by
  induction rs generalizing acc with
  | nil => simp
  | cons r rs ih =>
      rw [List.foldl_cons, List.filter_cons, ih]
      cases h : r.priv with
      | false => simp [h]; omega
      | true => simp [h]

/-- The sequential commit loop returns the accumulator plus the sum of the
lengths of the fetched per-repository commit listings. -/
theorem totalCommitsLoop_eq_sum (commits : String → Except JsError (HttpResp (List Commit)))
    (L : Repo → List Commit) :
    ∀ (rs : List Repo) (acc : Nat),
      (∀ r ∈ rs, fetchData (commits r.name) (commitsPath r.name) = Except.ok (L r)) →
      totalCommitsLoop commits rs acc =
        Except.ok (acc + (rs.map (fun r => (L r).length)).sum) := by
  intro rs
  induction rs with
  | nil => intro acc hc; simp [totalCommitsLoop]
  | cons r rs ih =>
      intro acc hc
      have hr := hc r (by simp)
      have hrest : ∀ x ∈ rs, fetchData (commits x.name) (commitsPath x.name) =
          Except.ok (L x) := fun x hx => hc x (by simp [hx])
      simp only [totalCommitsLoop, hr, Bind.bind, Except.bind]
      rw [ih (acc + (L r).length) hrest]
      simp only [List.map_cons, List.sum_cons, Except.ok.injEq]
      omega

/-- Successful aggregation in the first variant determines every summary
field from the fetched values. -/
theorem fetchAllBody_v1_ok_elim (env : ApiEnv) (s : Summary1)
    (h : fetchAllBody_v1 env = Except.ok s) :
    ∃ repositories totalCommits issuesData prs firstItem mergedPRs commentsData
      userData registeredDateIso firstPRDateIso,
      fetchData env.reposResp reposPath_v1 = Except.ok repositories ∧
      totalCommitsLoop env.commitsResp repositories 0 = Except.ok totalCommits ∧
      fetchData env.issuesResp issuesPath = Except.ok issuesData ∧
      fetchData env.prsAscResp prsAscPath_v1 = Except.ok prs ∧
      index0 prs.items = Except.ok firstItem ∧
      fetchData env.mergedResp mergedPath = Except.ok mergedPRs ∧
      fetchData env.commenterResp commenterPath = Except.ok commentsData ∧
      fetchData env.userResp userPath_v1 = Except.ok userData ∧
      normalizeDate userData.created_at = Except.ok registeredDateIso ∧
      normalizeDate firstItem.created_at = Except.ok firstPRDateIso ∧
      s = { issuesOpened := issuesData.total_count
            pullRequestsOpened := prs.total_count
            pullRequestsMerged := mergedPRs.total_count
            commentsOnIssues := commentsData.total_count
            publicRepoCount := userData.public_repos
            totalStars :=
              repositories.foldl (fun acc repo => acc + repo.stargazers_count) 0
            totalCommits := totalCommits
            registeredDate := registeredDateIso
            firstPullRequestDate := firstPRDateIso
            sponsoredAccounts := 3
            statUpdated := isoDateString env.now.year env.now.month env.now.day
            followers := userData.followers } := by
  unfold fetchAllBody_v1 at h
  simp only [bind_ok_iff] at h
  obtain ⟨repositories, h1, totalCommits, h2, issuesData, h3, prs, h4, firstItem, h5,
    mergedPRs, h6, commentsData, h7, userData, h8, rdate, h9, fdate, h10, hs⟩ := h
  exact ⟨repositories, totalCommits, issuesData, prs, firstItem, mergedPRs, commentsData,
    userData, rdate, fdate, h1, h2, h3, h4, h5, h6, h7, h8, h9, h10, by
      cases hs; rfl⟩

/-- Successful aggregation in the second variant determines every summary
field from the fetched values. -/
theorem fetchAllBody_v2_ok_elim (env : ApiEnv) (s : Summary2)
    (h : fetchAllBody_v2 env = Except.ok s) :
    ∃ repositories issuesData firstPrData firstItem latestPrData latestItem
      mergedPRs commentsData userData registeredDateIso firstPRDateIso latestPRDateIso,
      fetchData env.reposResp reposPath_v2 = Except.ok repositories ∧
      fetchData env.issuesResp issuesPath = Except.ok issuesData ∧
      fetchData env.prsAscResp prsAscPath_v2 = Except.ok firstPrData ∧
      index0 firstPrData.items = Except.ok firstItem ∧
      fetchData env.prsDescResp prsDescPath_v2 = Except.ok latestPrData ∧
      index0 latestPrData.items = Except.ok latestItem ∧
      fetchData env.mergedResp mergedPath = Except.ok mergedPRs ∧
      fetchData env.commenterResp commenterPath = Except.ok commentsData ∧
      fetchData env.userResp userPath_v2 = Except.ok userData ∧
      normalizeDate userData.created_at = Except.ok registeredDateIso ∧
      normalizeDate firstItem.created_at = Except.ok firstPRDateIso ∧
      normalizeDate latestItem.created_at = Except.ok latestPRDateIso ∧
      s = { issuesOpened := issuesData.total_count
            prsOpened := firstPrData.total_count
            prsMerged := mergedPRs.total_count
            commentsOnIssues := commentsData.total_count
            publicRepoCount := userData.public_repos
            totalStars := repositories.foldl
              (fun acc repo => if !repo.priv then acc + repo.stargazers_count else acc) 0
            registeredDate := registeredDateIso
            firstPRDate := firstPRDateIso
            firstPRUrl := firstItem.html_url
            sponsoredAccounts := 3
            statUpdated := isoDateString env.now.year env.now.month env.now.day
            followers := userData.followers
            latestPRDate := latestPRDateIso
            latestPRUrl := latestItem.html_url } := by
  unfold fetchAllBody_v2 at h
  simp only [bind_ok_iff] at h
  obtain ⟨repositories, h1, issuesData, h2, firstPrData, h3, firstItem, h4,
    latestPrData, h5, latestItem, h6, mergedPRs, h7, commentsData, h8, userData, h9,
    rdate, h10, fdate, h11, ldate, h12, hs⟩ := h
  exact ⟨repositories, issuesData, firstPrData, firstItem, latestPrData, latestItem,
    mergedPRs, commentsData, userData, rdate, fdate, ldate,
    h1, h2, h3, h4, h5, h6, h7, h8, h9, h10, h11, h12, by cases hs; rfl⟩

/-- A month never has more than 31 days. -/
theorem daysInMonth_le (y m : Nat) : daysInMonth y m ≤ 31 := by
  unfold daysInMonth
  split
  · split <;> norm_num
  · split <;> norm_num

/-- The parser only returns valid calendar dates. -/
theorem parseDateChars_valid (l : List Char) (y m d : Nat)
    (h : parseDateChars l = some (y, m, d)) : isValidYMD y m d = true := by
  unfold parseDateChars at h
  split at h
  · split at h
    · split at h
      · rename_i hcond
        simp only [Option.some.injEq, Prod.mk.injEq] at h
        obtain ⟨hy, hm, hd⟩ := h
        subst hy; subst hm; subst hd
        simp only [Bool.and_eq_true] at hcond
        exact hcond.1
      · exact absurd h (by simp)
    · exact absurd h (by simp)
  · exact absurd h (by simp)

/-- A normalized date string: the `YYYY-MM-DD` rendering of some valid
calendar date, with no time-of-day component. -/
def IsIsoDate (t : String) : Prop :=
  ∃ y m d, isValidYMD y m d = true ∧ t = isoDateString y m d

/-- Whatever the normalization returns (when it does not throw) is a
normalized calendar-date string. -/
theorem normalizeDate_shape (s t : String) (h : normalizeDate s = Except.ok t) :
    IsIsoDate t := by
  unfold normalizeDate parseDate at h
  cases hp : parseDateChars s.data with
  | none => rw [hp] at h; exact absurd h (by simp)
  | some ymd =>
      obtain ⟨y, m, d⟩ := ymd
      rw [hp] at h
      simp only [Except.ok.injEq] at h
      exact ⟨y, m, d, parseDateChars_valid _ _ _ _ hp, h.symm⟩

/-- Digit characters produced by the renderer pass the digit test. -/
theorem digitCh_mod_isDigit (n : Nat) : (digitCh (n % 10)).isDigit = true := by
  have h : n % 10 < 10 := Nat.mod_lt _ (by norm_num)
  interval_cases hn : n % 10 <;> decide

/-- Digit characters round-trip through the digit value. -/
theorem digitVal_digitCh_mod (n : Nat) : digitVal (digitCh (n % 10)) = n % 10 := by
  have h : n % 10 < 10 := Nat.mod_lt _ (by norm_num)
  interval_cases hn : n % 10 <;> decide

/-- Parsing the rendering of a valid calendar date recovers the date. -/
theorem parseDateChars_iso (y m d : Nat) (h : isValidYMD y m d = true) :
    parseDateChars (isoDateChars y m d) = some (y, m, d) := by
  have hb : y ≤ 9999 ∧ 1 ≤ m ∧ m ≤ 12 ∧ 1 ≤ d ∧ d ≤ daysInMonth y m := by
    simpa [isValidYMD, Bool.and_eq_true, decide_eq_true_eq, and_assoc] using h
  have hd31 : d ≤ 31 := le_trans hb.2.2.2.2 (daysInMonth_le y m)
  have ey : digitVal (digitCh (y / 1000 % 10)) * 1000 + digitVal (digitCh (y / 100 % 10)) * 100 +
      digitVal (digitCh (y / 10 % 10)) * 10 + digitVal (digitCh (y % 10)) = y := by
    simp only [digitVal_digitCh_mod]
    omega
  have em : digitVal (digitCh (m / 10 % 10)) * 10 + digitVal (digitCh (m % 10)) = m := by
    simp only [digitVal_digitCh_mod]
    omega
  have ed : digitVal (digitCh (d / 10 % 10)) * 10 + digitVal (digitCh (d % 10)) = d := by
    simp only [digitVal_digitCh_mod]
    omega
  simp only [isoDateChars, pad4, pad2, List.cons_append, List.nil_append]
  rw [parseDateChars]
  simp only [digitCh_mod_isDigit, Bool.and_self, if_true, ey, em, ed, h, timeTailOk,
    Bool.and_true, if_pos]

/-- The same environment with a different wall clock: the API part of any
two runs over identical responses. -/
def setNow (env : ApiEnv) (n : CivilDate) : ApiEnv := { env with now := n }

theorem setNow_reposResp (env : ApiEnv) (n : CivilDate) :
    (setNow env n).reposResp = env.reposResp := rfl

theorem setNow_commitsResp (env : ApiEnv) (n : CivilDate) :
    (setNow env n).commitsResp = env.commitsResp := rfl

theorem setNow_issuesResp (env : ApiEnv) (n : CivilDate) :
    (setNow env n).issuesResp = env.issuesResp := rfl

theorem setNow_prsAscResp (env : ApiEnv) (n : CivilDate) :
    (setNow env n).prsAscResp = env.prsAscResp := rfl

theorem setNow_prsDescResp (env : ApiEnv) (n : CivilDate) :
    (setNow env n).prsDescResp = env.prsDescResp := rfl

theorem setNow_mergedResp (env : ApiEnv) (n : CivilDate) :
    (setNow env n).mergedResp = env.mergedResp := rfl

theorem setNow_commenterResp (env : ApiEnv) (n : CivilDate) :
    (setNow env n).commenterResp = env.commenterResp := rfl

theorem setNow_userResp (env : ApiEnv) (n : CivilDate) :
    (setNow env n).userResp = env.userResp := rfl

theorem setNow_now (env : ApiEnv) (n : CivilDate) : (setNow env n).now = n := rfl

/-- A first-variant summary with the wall-clock stamp blanked, for comparing
runs up to the stamp. -/
def eraseStamp_v1 (s : Summary1) : Summary1 := { s with statUpdated := "" }

/-- A second-variant summary with the wall-clock stamp blanked. -/
def eraseStamp_v2 (s : Summary2) : Summary2 := { s with statUpdated := "" }

/-- C4: for every call to `fetchData`, a network-level failure or a non-ok
HTTP status makes the call fail with a wrapping error that names the path
and carries the underlying failure as its cause; when the response is ok the
parsed JSON body is returned. -/
theorem c4_fetchData_wraps_failures {α : Type} (resp : Except JsError (HttpResp α))
    (path : String) :
    (∀ e, resp = Except.error e →
      fetchData resp path = Except.error (JsError.fetchError path e)) ∧
    (∀ r, resp = Except.ok r → r.ok = false → r.errJson = Except.ok () →
      fetchData resp path =
        Except.error (JsError.fetchError path (JsError.httpError r.status r.statusText))) ∧
    (∀ r d, resp = Except.ok r → r.ok = true → r.json = Except.ok d →
      fetchData resp path = Except.ok d) := by
  refine ⟨?_, ?_, ?_⟩
  · intro e he; subst he; rfl
  · intro r hr hok herr; subst hr
    unfold fetchData fetchDataTry
    simp [hok, herr, Bind.bind, Except.bind]
  · intro r d hr hok hjson; subst hr
    unfold fetchData fetchDataTry
    simp [hok, hjson, Bind.bind, Except.bind]

theorem c4_fetchData_wraps_failures_witness :
    fetchData
      (Except.ok ⟨false, 404, "Not Found", Except.error (JsError.jsonParseError "no body"),
        Except.ok ()⟩ : Except JsError (HttpResp UserData)) "user" =
      Except.error (JsError.fetchError "user" (JsError.httpError 404 "Not Found")) :=
  (c4_fetchData_wraps_failures _ "user").2.1 _ rfl rfl rfl

/-- C8: date normalization is idempotent: a string that is already the
normalized `YYYY-MM-DD` rendering of a valid calendar date passes through
the parse-then-format function unchanged. -/
theorem c8_normalize_idempotent (t : String) (h : IsIsoDate t) :
    normalizeDate t = Except.ok t := by
  obtain ⟨y, m, d, hv, rfl⟩ := h
  unfold normalizeDate parseDate
  have hdata : (isoDateString y m d).data = isoDateChars y m d := rfl
  rw [hdata, parseDateChars_iso y m d hv]

theorem c8_normalize_idempotent_witness :
    IsIsoDate "2024-05-17" ∧ normalizeDate "2024-05-17" = Except.ok "2024-05-17" :=
  have h : IsIsoDate "2024-05-17" := ⟨2024, 5, 17, by decide, by decide⟩
  ⟨h, c8_normalize_idempotent "2024-05-17" h⟩

/-- C7: every date field of a successfully produced summary record, in both
variants, is a normalized `YYYY-MM-DD` calendar-date string with no
time-of-day component. -/
theorem c7_summary_dates_iso :
    (∀ env s, fetchAllBody_v1 env = Except.ok s →
      IsIsoDate s.registeredDate ∧ IsIsoDate s.firstPullRequestDate ∧
      IsIsoDate s.statUpdated) ∧
    (∀ env s, fetchAllBody_v2 env = Except.ok s →
      IsIsoDate s.registeredDate ∧ IsIsoDate s.firstPRDate ∧ IsIsoDate s.latestPRDate ∧
      IsIsoDate s.statUpdated) := by
  constructor
  · intro env s hs
    obtain ⟨repositories, totalCommits, issuesData, prs, firstItem, mergedPRs, commentsData,
      userData, rdate, fdate, h1, h2, h3, h4, h5, h6, h7, h8, h9, h10, hfields⟩ :=
      fetchAllBody_v1_ok_elim env s hs
    subst hfields
    exact ⟨normalizeDate_shape _ _ h9, normalizeDate_shape _ _ h10,
      env.now.year, env.now.month, env.now.day, env.now.valid, rfl⟩
  · intro env s hs
    obtain ⟨repositories, issuesData, firstPrData, firstItem, latestPrData, latestItem,
      mergedPRs, commentsData, userData, rdate, fdate, ldate,
      h1, h2, h3, h4, h5, h6, h7, h8, h9, h10, h11, h12, hfields⟩ :=
      fetchAllBody_v2_ok_elim env s hs
    subst hfields
    exact ⟨normalizeDate_shape _ _ h10, normalizeDate_shape _ _ h11,
      normalizeDate_shape _ _ h12,
      env.now.year, env.now.month, env.now.day, env.now.valid, rfl⟩

theorem c7_summary_dates_iso_witness :
    fetchAllBody_v1 envGood = Except.ok sGood1 ∧ IsIsoDate sGood1.registeredDate ∧
    IsIsoDate sGood1.firstPullRequestDate ∧ IsIsoDate sGood1.statUpdated :=
  ⟨rfl, c7_summary_dates_iso.1 envGood sGood1 rfl⟩

/-- C3: in the first variant the summary's total-stars count is the sum of
`stargazers_count` over the fetched repository list; in the second (filtered)
variant it is the sum restricted to repositories whose `private` field is
false. -/
theorem c3_total_stars_sum (env : ApiEnv) :
    (∀ repositories s, fetchData env.reposResp reposPath_v1 = Except.ok repositories →
        fetchAllBody_v1 env = Except.ok s →
        s.totalStars = (repositories.map Repo.stargazers_count).sum) ∧
    (∀ repositories s, fetchData env.reposResp reposPath_v2 = Except.ok repositories →
        fetchAllBody_v2 env = Except.ok s →
        s.totalStars =
          ((repositories.filter (fun repo => !repo.priv)).map Repo.stargazers_count).sum) := by
  constructor
  · intro repositories s hr hs
    obtain ⟨rs2, totalCommits, issuesData, prs, firstItem, mergedPRs, commentsData,
      userData, rdate, fdate, h1, _, _, _, _, _, _, _, _, _, hfields⟩ :=
      fetchAllBody_v1_ok_elim env s hs
    rw [h1] at hr
    simp only [Except.ok.injEq] at hr
    subst hr
    subst hfields
    simp [foldl_stars_eq_sum]
  · intro repositories s hr hs
    obtain ⟨rs2, issuesData, firstPrData, firstItem, latestPrData, latestItem,
      mergedPRs, commentsData, userData, rdate, fdate, ldate,
      h1, _, _, _, _, _, _, _, _, _, _, _, hfields⟩ :=
      fetchAllBody_v2_ok_elim env s hs
    rw [h1] at hr
    simp only [Except.ok.injEq] at hr
    subst hr
    subst hfields
    simpa using foldl_stars_filter_eq_sum rs2 0

theorem c3_total_stars_sum_witness :
    fetchData envGood.reposResp reposPath_v1 = Except.ok reposGood ∧
    fetchAllBody_v1 envGood = Except.ok sGood1 ∧
    sGood1.totalStars = (reposGood.map Repo.stargazers_count).sum :=
  ⟨rfl, rfl, (c3_total_stars_sum envGood).1 reposGood sGood1 rfl rfl⟩

/-- The commit listings delivered to each repository in the concrete test
environment. -/
def commitsGood : Repo → List Commit := fun _ => [{ sha := "c1" }, { sha := "c2" }]

/-- C9: in the first variant the summary's total-commits count is the sum,
over the fetched repository list, of the lengths of the per-repository
commit listings; the listings are fetched one after another by the
sequential loop `totalCommitsLoop`, whose recursion issues the next fetch
only after the previous one returned. -/
theorem c9_total_commits_sum (env : ApiEnv) (repositories : List Repo)
    (L : Repo → List Commit) (s : Summary1)
    (hr : fetchData env.reposResp reposPath_v1 = Except.ok repositories)
    (hc : ∀ r ∈ repositories,
      fetchData (env.commitsResp r.name) (commitsPath r.name) = Except.ok (L r))
    (hs : fetchAllBody_v1 env = Except.ok s) :
    s.totalCommits = (repositories.map (fun r => (L r).length)).sum := by
  obtain ⟨rs2, totalCommits, issuesData, prs, firstItem, mergedPRs, commentsData,
    userData, rdate, fdate, h1, h2, _, _, _, _, _, _, _, _, hfields⟩ :=
    fetchAllBody_v1_ok_elim env s hs
  rw [h1] at hr
  simp only [Except.ok.injEq] at hr
  rw [hr] at h2
  rw [totalCommitsLoop_eq_sum env.commitsResp L repositories 0 hc] at h2
  simp only [Except.ok.injEq] at h2
  subst hfields
  simp [← h2]

theorem c9_total_commits_sum_witness :
    (∀ r ∈ reposGood, fetchData (envGood.commitsResp r.name) (commitsPath r.name) =
      Except.ok (commitsGood r)) ∧
    fetchAllBody_v1 envGood = Except.ok sGood1 ∧
    sGood1.totalCommits = (reposGood.map (fun r => (commitsGood r).length)).sum :=
  ⟨fun _ _ => rfl, rfl,
    c9_total_commits_sum envGood reposGood commitsGood sGood1 rfl (fun _ _ => rfl) rfl⟩

/-- C6: the summary's first and latest pull-request dates and URLs come from
item 0 of the creation-date-sorted search queries — ascending for first,
descending for latest — whatever that item is; the sort order lives in the
query string and no local scan or re-sorting of the returned list happens
(the theorem holds for arbitrary, even unsorted, `items` lists). -/
theorem c6_first_latest_from_query_head :
    prsAscPath_v2 = "search/issues?q=author:la55u+type:pr&sort=created&order=asc&per_page=1" ∧
    prsDescPath_v2 = "search/issues?q=author:la55u+type:pr&sort=created&order=desc&per_page=1" ∧
    prsAscPath_v1 = "search/issues?q=author:la55u+type:pr&sort=created&order=asc" ∧
    (∀ env firstPrData item rest s,
        fetchData env.prsAscResp prsAscPath_v2 = Except.ok firstPrData →
        firstPrData.items = item :: rest →
        fetchAllBody_v2 env = Except.ok s →
        normalizeDate item.created_at = Except.ok s.firstPRDate ∧
        s.firstPRUrl = item.html_url) ∧
    (∀ env latestPrData item rest s,
        fetchData env.prsDescResp prsDescPath_v2 = Except.ok latestPrData →
        latestPrData.items = item :: rest →
        fetchAllBody_v2 env = Except.ok s →
        normalizeDate item.created_at = Except.ok s.latestPRDate ∧
        s.latestPRUrl = item.html_url) ∧
    (∀ env prs item rest s,
        fetchData env.prsAscResp prsAscPath_v1 = Except.ok prs →
        prs.items = item :: rest →
        fetchAllBody_v1 env = Except.ok s →
        normalizeDate item.created_at = Except.ok s.firstPullRequestDate) := by
  refine ⟨rfl, rfl, rfl, ?_, ?_, ?_⟩
  · intro env firstPrData item rest s hq hitems hs
    obtain ⟨rs2, issuesData, firstPrData2, firstItem, latestPrData, latestItem,
      mergedPRs, commentsData, userData, rdate, fdate, ldate,
      h1, h2, h3, h4, h5, h6, h7, h8, h9, h10, h11, h12, hfields⟩ :=
      fetchAllBody_v2_ok_elim env s hs
    rw [h3] at hq
    simp only [Except.ok.injEq] at hq
    rw [hq, hitems] at h4
    simp only [index0, Except.ok.injEq] at h4
    subst hfields
    subst h4
    exact ⟨h11, rfl⟩
  · intro env latestPrData item rest s hq hitems hs
    obtain ⟨rs2, issuesData, firstPrData, firstItem, latestPrData2, latestItem,
      mergedPRs, commentsData, userData, rdate, fdate, ldate,
      h1, h2, h3, h4, h5, h6, h7, h8, h9, h10, h11, h12, hfields⟩ :=
      fetchAllBody_v2_ok_elim env s hs
    rw [h5] at hq
    simp only [Except.ok.injEq] at hq
    rw [hq, hitems] at h6
    simp only [index0, Except.ok.injEq] at h6
    subst hfields
    subst h6
    exact ⟨h12, rfl⟩
  · intro env prs item rest s hq hitems hs
    obtain ⟨rs2, totalCommits, issuesData, prs2, firstItem, mergedPRs, commentsData,
      userData, rdate, fdate, h1, h2, h3, h4, h5, h6, h7, h8, h9, h10, hfields⟩ :=
      fetchAllBody_v1_ok_elim env s hs
    rw [h4] at hq
    simp only [Except.ok.injEq] at hq
    rw [hq, hitems] at h5
    simp only [index0, Except.ok.injEq] at h5
    subst hfields
    subst h5
    exact h10

theorem c6_first_latest_from_query_head_witness :
    fetchAllBody_v2 envGood = Except.ok sGood2 ∧
    normalizeDate "2020-02-02T03:04:05Z" = Except.ok sGood2.firstPRDate ∧
    sGood2.firstPRUrl = "https://first" :=
  ⟨rfl, c6_first_latest_from_query_head.2.2.2.1 envGood
    ⟨4, [{ created_at := "2020-02-02T03:04:05Z", html_url := "https://first" }]⟩
    { created_at := "2020-02-02T03:04:05Z", html_url := "https://first" } [] sGood2
    rfl rfl rfl⟩

/-- C10: two runs over identical API responses and template differ, at the
summary level, at most in the wall-clock `statUpdated` field: every other
summary field is a deterministic function of the fetched inputs, in both
variants.  (The rendered document is the renderer applied to the summary, so
it inherits this determinism up to the substituted stamp.) -/
theorem c10_deterministic_modulo_stamp (env : ApiEnv) (n1 n2 : CivilDate) :
    (∀ s1 s2, fetchAllBody_v1 (setNow env n1) = Except.ok s1 →
        fetchAllBody_v1 (setNow env n2) = Except.ok s2 →
        eraseStamp_v1 s1 = eraseStamp_v1 s2) ∧
    (∀ s1 s2, fetchAllBody_v2 (setNow env n1) = Except.ok s1 →
        fetchAllBody_v2 (setNow env n2) = Except.ok s2 →
        eraseStamp_v2 s1 = eraseStamp_v2 s2) := by
  constructor
  · intro s1 s2 hs1 hs2
    obtain ⟨rsA, tcA, issA, prsA, fiA, mgA, cmA, udA, rdA, fdA,
      a1, a2, a3, a4, a5, a6, a7, a8, a9, a10, hfA⟩ :=
      fetchAllBody_v1_ok_elim _ s1 hs1
    obtain ⟨rsB, tcB, issB, prsB, fiB, mgB, cmB, udB, rdB, fdB,
      b1, b2, b3, b4, b5, b6, b7, b8, b9, b10, hfB⟩ :=
      fetchAllBody_v1_ok_elim _ s2 hs2
    rw [setNow_reposResp] at a1 b1
    rw [setNow_commitsResp] at a2 b2
    rw [setNow_issuesResp] at a3 b3
    rw [setNow_prsAscResp] at a4 b4
    rw [setNow_mergedResp] at a6 b6
    rw [setNow_commenterResp] at a7 b7
    rw [setNow_userResp] at a8 b8
    rw [a1] at b1; simp only [Except.ok.injEq] at b1; subst b1
    rw [a2] at b2; simp only [Except.ok.injEq] at b2; subst b2
    rw [a3] at b3; simp only [Except.ok.injEq] at b3; subst b3
    rw [a4] at b4; simp only [Except.ok.injEq] at b4; subst b4
    rw [a5] at b5; simp only [Except.ok.injEq] at b5; subst b5
    rw [a6] at b6; simp only [Except.ok.injEq] at b6; subst b6
    rw [a7] at b7; simp only [Except.ok.injEq] at b7; subst b7
    rw [a8] at b8; simp only [Except.ok.injEq] at b8; subst b8
    rw [a9] at b9; simp only [Except.ok.injEq] at b9; subst b9
    rw [a10] at b10; simp only [Except.ok.injEq] at b10; subst b10
    subst hfA; subst hfB
    rfl
  · intro s1 s2 hs1 hs2
    obtain ⟨rsA, issA, fpA, fiA, lpA, liA, mgA, cmA, udA, rdA, fdA, ldA,
      a1, a2, a3, a4, a5, a6, a7, a8, a9, a10, a11, a12, hfA⟩ :=
      fetchAllBody_v2_ok_elim _ s1 hs1
    obtain ⟨rsB, issB, fpB, fiB, lpB, liB, mgB, cmB, udB, rdB, fdB, ldB,
      b1, b2, b3, b4, b5, b6, b7, b8, b9, b10, b11, b12, hfB⟩ :=
      fetchAllBody_v2_ok_elim _ s2 hs2
    rw [setNow_reposResp] at a1 b1
    rw [setNow_issuesResp] at a2 b2
    rw [setNow_prsAscResp] at a3 b3
    rw [setNow_prsDescResp] at a5 b5
    rw [setNow_mergedResp] at a7 b7
    rw [setNow_commenterResp] at a8 b8
    rw [setNow_userResp] at a9 b9
    rw [a1] at b1; simp only [Except.ok.injEq] at b1; subst b1
    rw [a2] at b2; simp only [Except.ok.injEq] at b2; subst b2
    rw [a3] at b3; simp only [Except.ok.injEq] at b3; subst b3
    rw [a4] at b4; simp only [Except.ok.injEq] at b4; subst b4
    rw [a5] at b5; simp only [Except.ok.injEq] at b5; subst b5
    rw [a6] at b6; simp only [Except.ok.injEq] at b6; subst b6
    rw [a7] at b7; simp only [Except.ok.injEq] at b7; subst b7
    rw [a8] at b8; simp only [Except.ok.injEq] at b8; subst b8
    rw [a9] at b9; simp only [Except.ok.injEq] at b9; subst b9
    rw [a10] at b10; simp only [Except.ok.injEq] at b10; subst b10
    rw [a11] at b11; simp only [Except.ok.injEq] at b11; subst b11
    rw [a12] at b12; simp only [Except.ok.injEq] at b12; subst b12
    subst hfA; subst hfB
    rfl

/-- A second wall-clock date for the determinism witness. -/
def laterDate : CivilDate := { year := 2025, month := 1, day := 2, valid := by decide }

/-- The summary of the first variant on `envGood` with the later clock. -/
def sGood1Later : Summary1 := { sGood1 with statUpdated := "2025-01-02" }

theorem c10_deterministic_modulo_stamp_witness :
    fetchAllBody_v1 (setNow envGood envGood.now) = Except.ok sGood1 ∧
    fetchAllBody_v1 (setNow envGood laterDate) = Except.ok sGood1Later ∧
    eraseStamp_v1 sGood1 = eraseStamp_v1 sGood1Later :=
  ⟨rfl, rfl,
    (c10_deterministic_modulo_stamp envGood envGood.now laterDate).1 sGood1 sGood1Later rfl rfl⟩

/-- C2 (amended): if any fetch in the sequence fails, the aggregation aborts
as a whole and no summary record is produced from a partial subset of the
fetches, in both variants; but only the second variant surfaces the error to
its caller (wrapped, after logging it), while the first variant logs the
error and returns `undefined`, surfacing no error. -/
theorem c2_fetch_failure_aborts_aggregation :
    (∀ env e, fetchAllBody_v2 env = Except.error e →
        fetchAll_v2 env = (Except.error (JsError.wrapped e), [LogEvent.fetchAllError e])) ∧
    (∀ env s, (fetchAll_v2 env).1 = Except.ok s → fetchAllBody_v2 env = Except.ok s) ∧
    (∀ env e, fetchAllBody_v1 env = Except.error e →
        fetchAll_v1 env = (none, [LogEvent.fetchAllError e])) ∧
    (∀ env s, (fetchAll_v1 env).1 = some s → fetchAllBody_v1 env = Except.ok s) := by
  refine ⟨?_, ?_, ?_, ?_⟩
  · intro env e h
    unfold fetchAll_v2
    rw [h]
  · intro env s h
    cases hb : fetchAllBody_v2 env with
    | ok s2 =>
        simp [fetchAll_v2, hb] at h
        rw [h]
    | error e => simp [fetchAll_v2, hb] at h
  · intro env e h
    unfold fetchAll_v1
    rw [h]
  · intro env s h
    cases hb : fetchAllBody_v1 env with
    | ok s2 =>
        simp [fetchAll_v1, hb] at h
        rw [h]
    | error e => simp [fetchAll_v1, hb] at h

theorem c2_fetch_failure_aborts_aggregation_witness :
    fetchAllBody_v2 envBad =
      Except.error (JsError.fetchError reposPath_v2 (JsError.networkError "fetch failed")) ∧
    fetchAll_v2 envBad =
      (Except.error (JsError.wrapped
        (JsError.fetchError reposPath_v2 (JsError.networkError "fetch failed"))),
       [LogEvent.fetchAllError
        (JsError.fetchError reposPath_v2 (JsError.networkError "fetch failed"))]) :=
  ⟨rfl, c2_fetch_failure_aborts_aggregation.1 envBad _ rfl⟩

/-- C2 counterexample: in the first variant a failed fetch does not surface
any error to the caller of `fetchAll`: the aggregation body throws, yet
`fetchAll` returns the normal value `undefined` (`none`), and the run's log
shows the error was consumed inside `fetchAll` (no entry-point log entry
ever mentions it). -/
theorem c2_error_not_surfaced_counterexample :
    fetchAllBody_v1 envBad =
      Except.error (JsError.fetchError reposPath_v1 (JsError.networkError "fetch failed")) ∧
    fetchAll_v1 envBad =
      (none, [LogEvent.fetchAllError
        (JsError.fetchError reposPath_v1 (JsError.networkError "fetch failed"))]) ∧
    (main_v1 envBad fsOk hbConst1).logged =
      [LogEvent.fetchAllError
        (JsError.fetchError reposPath_v1 (JsError.networkError "fetch failed"))] :=
  ⟨rfl, rfl, rfl⟩

/-- C1 (amended): in the second variant any stage exception is caught and
logged by the entry point and the output file is written exactly when every
stage succeeds.  In the first variant a fetch-stage exception is caught and
logged inside the aggregator and the run continues with an `undefined`
summary: the output file is written exactly when template loading and
rendering succeed, regardless of the fetch stage. -/
theorem c1_output_write_policy :
    (∀ env fsRead hb c, (main_v2 env fsRead hb).written = some c ↔
        ∃ s templateContent, (fetchAll_v2 env).1 = Except.ok s ∧
          fsRead = Except.ok templateContent ∧ hb templateContent s = Except.ok c) ∧
    (∀ env fsRead hb, (main_v2 env fsRead hb).written = none →
        ∃ e, LogEvent.mainError e ∈ (main_v2 env fsRead hb).logged) ∧
    (∀ env fsRead hb c, (main_v1 env fsRead hb).written = some c ↔
        ∃ templateContent, fsRead = Except.ok templateContent ∧
          hb templateContent (fetchAll_v1 env).1 = Except.ok c) ∧
    (∀ env fsRead hb e, fetchAllBody_v1 env = Except.error e →
        LogEvent.fetchAllError e ∈ (main_v1 env fsRead hb).logged) := by
  refine ⟨?_, ?_, ?_, ?_⟩
  · intro env fsRead hb c
    cases hfa : fetchAll_v2 env with
    | mk r logs1 =>
      cases r with
      | error e => simp [main_v2, hfa]
      | ok data =>
        cases fsRead with
        | error e => simp [main_v2, hfa, generateReadme, loadTemplate]
        | ok t =>
          cases hhb : hb t data with
          | error e => simp [main_v2, hfa, generateReadme, loadTemplate, hhb]
          | ok content => simp [main_v2, hfa, generateReadme, loadTemplate, hhb, eq_comm]
  · intro env fsRead hb
    cases hfa : fetchAll_v2 env with
    | mk r logs1 =>
      cases r with
      | error e => intro _; exact ⟨e, by simp [main_v2, hfa]⟩
      | ok data =>
        cases fsRead with
        | error e => intro _; exact ⟨e, by simp [main_v2, hfa, generateReadme, loadTemplate]⟩
        | ok t =>
          cases hhb : hb t data with
          | error e =>
              intro _
              exact ⟨e, by simp [main_v2, hfa, generateReadme, loadTemplate, hhb]⟩
          | ok content =>
              intro hnone
              exact absurd hnone (by simp [main_v2, hfa, generateReadme, loadTemplate, hhb])
  · intro env fsRead hb c
    cases hfa : fetchAll_v1 env with
    | mk data logs1 =>
      cases fsRead with
      | error e => simp [main_v1, hfa, generateReadme, loadTemplate]
      | ok t =>
        cases hhb : hb t data with
        | error e => simp [main_v1, hfa, generateReadme, loadTemplate, hhb]
        | ok content => simp [main_v1, hfa, generateReadme, loadTemplate, hhb, eq_comm]
  · intro env fsRead hb e hbody
    have hfa : fetchAll_v1 env = (none, [LogEvent.fetchAllError e]) := by
      unfold fetchAll_v1
      rw [hbody]
    cases fsRead with
    | error e2 => simp [main_v1, hfa, generateReadme, loadTemplate]
    | ok t =>
      cases hhb : hb t none with
      | error e2 => simp [main_v1, hfa, generateReadme, loadTemplate, hhb]
      | ok content => simp [main_v1, hfa, generateReadme, loadTemplate, hhb]

theorem c1_output_write_policy_witness :
    fetchAllBody_v1 envBad =
      Except.error (JsError.fetchError reposPath_v1 (JsError.networkError "fetch failed")) ∧
    (main_v1 envBad fsOk hbConst1).written = some "RENDERED" :=
  ⟨rfl, (c1_output_write_policy.2.2.1 envBad fsOk hbConst1 "RENDERED").mpr
    ⟨"TEMPLATE", rfl, rfl⟩⟩

/-- C1 counterexample: a run of the first variant in which the fetch stage
raises an exception and the output file is nevertheless written — the claim
that the output file is written only when every stage succeeds is false of
the first variant. -/
theorem c1_written_despite_failure_counterexample :
    fetchAllBody_v1 envBad =
      Except.error (JsError.fetchError reposPath_v1 (JsError.networkError "fetch failed")) ∧
    main_v1 envBad fsOk hbConst1 =
      { written := some "RENDERED",
        logged := [LogEvent.fetchAllError
          (JsError.fetchError reposPath_v1 (JsError.networkError "fetch failed"))] } :=
  ⟨rfl, rfl⟩

/-- The TypeError raised by reading `created_at` on `items[0]` of an empty
search-result list. -/
def emptyItemsErr : JsError :=
  JsError.typeError "Cannot read properties of undefined (reading created_at)"

/-- C5 (amended): when a pull-request search response contains zero items,
indexing item 0 raises a TypeError inside the aggregation.  In the second
variant the aggregator logs it and rethrows it with the original cause
attached, the entry point logs it once more, and the run aborts with no
output written.  In the first variant the aggregator catches and logs the
TypeError and the run continues with an `undefined` summary — the failure is
not propagated upward and does not abort the run. -/
theorem c5_empty_search_items :
    (∀ env repositories issuesData firstPrData,
        fetchData env.reposResp reposPath_v2 = Except.ok repositories →
        fetchData env.issuesResp issuesPath = Except.ok issuesData →
        fetchData env.prsAscResp prsAscPath_v2 = Except.ok firstPrData →
        firstPrData.items = [] →
        fetchAll_v2 env = (Except.error (JsError.wrapped emptyItemsErr),
          [LogEvent.fetchAllError emptyItemsErr]) ∧
        ∀ fsRead hb, (main_v2 env fsRead hb).written = none ∧
          (main_v2 env fsRead hb).logged =
            [LogEvent.fetchAllError emptyItemsErr,
             LogEvent.mainError (JsError.wrapped emptyItemsErr)]) ∧
    (∀ env repositories (L : Repo → List Commit) issuesData prs,
        fetchData env.reposResp reposPath_v1 = Except.ok repositories →
        (∀ r ∈ repositories, fetchData (env.commitsResp r.name) (commitsPath r.name) =
          Except.ok (L r)) →
        fetchData env.issuesResp issuesPath = Except.ok issuesData →
        fetchData env.prsAscResp prsAscPath_v1 = Except.ok prs →
        prs.items = [] →
        fetchAll_v1 env = (none, [LogEvent.fetchAllError emptyItemsErr])) := by
  constructor
  · intro env repositories issuesData firstPrData h1 h2 h3 hitems
    have hbody : fetchAllBody_v2 env = Except.error emptyItemsErr := by
      unfold fetchAllBody_v2
      simp only [h1, h2, h3, hitems, index0, Bind.bind, Except.bind, emptyItemsErr]
    have hfa : fetchAll_v2 env = (Except.error (JsError.wrapped emptyItemsErr),
        [LogEvent.fetchAllError emptyItemsErr]) := by
      unfold fetchAll_v2
      rw [hbody]
    refine ⟨hfa, ?_⟩
    intro fsRead hb
    constructor
    · simp [main_v2, hfa]
    · simp [main_v2, hfa]
  · intro env repositories L issuesData prs h1 hc h3 h4 hitems
    have hloop := totalCommitsLoop_eq_sum env.commitsResp L repositories 0 hc
    have hbody : fetchAllBody_v1 env = Except.error emptyItemsErr := by
      unfold fetchAllBody_v1
      simp only [h1, hloop, h3, h4, hitems, index0, Bind.bind, Except.bind, emptyItemsErr]
    unfold fetchAll_v1
    rw [hbody]

theorem c5_empty_search_items_witness :
    fetchData envEmpty.prsAscResp prsAscPath_v2 =
      Except.ok { total_count := 0, items := [] } ∧
    fetchAll_v2 envEmpty = (Except.error (JsError.wrapped emptyItemsErr),
      [LogEvent.fetchAllError emptyItemsErr]) ∧
    (main_v2 envEmpty fsOk hbConst2).written = none :=
  ⟨rfl,
    (c5_empty_search_items.1 envEmpty reposGood ⟨7, []⟩ ⟨0, []⟩ rfl rfl rfl rfl).1,
    ((c5_empty_search_items.1 envEmpty reposGood ⟨7, []⟩ ⟨0, []⟩ rfl rfl rfl rfl).2
      fsOk hbConst2).1⟩

/-- C5 counterexample: in the first variant the zero-item search response
raises the TypeError inside the aggregation, but the failure is not
propagated upward and does not abort the run: the entry point logs nothing
and the output file is written. -/
theorem c5_not_propagated_counterexample :
    fetchAllBody_v1 envEmpty = Except.error emptyItemsErr ∧
    main_v1 envEmpty fsOk hbConst1 =
      { written := some "RENDERED",
        logged := [LogEvent.fetchAllError emptyItemsErr] } :=
  ⟨rfl, rfl⟩
